import Mathlib

/-!
Verification of the ktmt three-tier Modbus gateway.

This file shallowly embeds the core of the repository:

* `src/slave1/modbus_utils.py` — the Modbus RTU codec (CRC-16, frame
  builders for FC03/FC04/FC06/FC16, the register packers);
* `src/slave1/device_manager.py` — the per-device frame constructors;
* `src/slave1/plc_controller.py` — the AUTO/MANUAL controller cycle
  (`check_target_from_tcp`, `process_manual_command`, `auto_cycle`);
* `src/master2./modbus_service.py` — the Supervisor relay's status parse
  (`poll_status`) and the signed-32-bit register codec
  (`regs_to_s32` / `s32_to_regs`);
* the JSON admission checks of `src/master/tcp_server.py`
  (`TCPServerForC._handle_command`) and `src/master2./ui.py`
  (`LayerBMainWindow._on_command_from_c`).

Bytes are modelled as `Nat` (every constructor masks with `&&& 0xFF`
exactly where the Python source does), frames as `List Nat`, registers
as `Nat`, and Python's unbounded signed integers as `Int`.  Serial
transactions are modelled by their request frame together with a
response oracle (`DevResp`) saying whether each `send_frame` call
returned a response that passed the source's success check.
-/

namespace Ktmt

/-! ## modbus_utils.py — CRC-16 and frame builders -/

/-- One shift round of the CRC-16 loop (`if crc & 1: crc = (crc >> 1) ^ 0xA001 else crc >>= 1`). -/
def crc16_round (crc : Nat) : Nat :=
  if crc &&& 1 = 1 then (crc >>> 1) ^^^ 0xA001 else crc >>> 1

/-- Fold one byte into the CRC accumulator: `crc ^= b` then eight shift rounds. -/
def crc16_byte (crc b : Nat) : Nat :=
  (List.range 8).foldl (fun c _ => crc16_round c) (crc ^^^ b)

/-- `crc16_modbus` from `src/slave1/modbus_utils.py`: seed `0xFFFF`,
polynomial `0xA001`, LSB first, final mask `&&& 0xFFFF`. -/
def crc16_modbus (data : List Nat) : Nat :=
  (data.foldl crc16_byte 0xFFFF) &&& 0xFFFF

/-- `verify_crc` from `src/slave1/modbus_utils.py`: reject frames shorter
than 5 bytes, recompute the CRC over `resp[:-2]` and compare with the
little-endian CRC in the two tail bytes. -/
def verify_crc (resp : List Nat) : Bool :=
  if resp.length < 5 then false
  else
    let data := resp.take (resp.length - 2)
    let recv_crc := resp.getD (resp.length - 2) 0 ||| (resp.getD (resp.length - 1) 0) <<< 8
    recv_crc == crc16_modbus data

/-- Append the CRC of `data` little-endian, as every builder in
`modbus_utils.py` does (`data + bytes([crc & 0xFF, (crc >> 8) & 0xFF])`). -/
def append_crc (data : List Nat) : List Nat :=
  let crc := crc16_modbus data
  data ++ [crc &&& 0xFF, (crc >>> 8) &&& 0xFF]

/-- `build_fc03` — Read Holding Registers request. -/
def build_fc03 (slave_id start_reg count : Nat) : List Nat :=
  append_crc [slave_id, 0x03,
    (start_reg >>> 8) &&& 0xFF, start_reg &&& 0xFF,
    (count >>> 8) &&& 0xFF, count &&& 0xFF]

/-- `build_fc04` — Read Input Registers request. -/
def build_fc04 (slave_id start_reg count : Nat) : List Nat :=
  append_crc [slave_id, 0x04,
    (start_reg >>> 8) &&& 0xFF, start_reg &&& 0xFF,
    (count >>> 8) &&& 0xFF, count &&& 0xFF]

/-- `build_fc06` — Write Single Register request. -/
def build_fc06 (slave_id reg_addr reg_val : Nat) : List Nat :=
  append_crc [slave_id, 0x06,
    (reg_addr >>> 8) &&& 0xFF, reg_addr &&& 0xFF,
    (reg_val >>> 8) &&& 0xFF, reg_val &&& 0xFF]

/-- `build_fc16` — Write Multiple Registers request: header with register
count and byte count, then each register big-endian. -/
def build_fc16 (slave_id start_reg : Nat) (registers : List Nat) : List Nat :=
  let reg_count := registers.length
  let byte_count := reg_count * 2
  append_crc
    ([slave_id, 0x10,
      (start_reg >>> 8) &&& 0xFF, start_reg &&& 0xFF,
      (reg_count >>> 8) &&& 0xFF, reg_count &&& 0xFF,
      byte_count] ++
     registers.foldl (fun acc reg => acc ++ [(reg >>> 8) &&& 0xFF, reg &&& 0xFF]) [])

/-- `pack_u32` — split an unsigned 32-bit value into two big-endian registers. -/
def pack_u32 (val : Nat) : List Nat :=
  [(val >>> 16) &&& 0xFFFF, val &&& 0xFFFF]

/-- `pack_s32` — two's-complement a negative value into `[0, 2^32)` then
split into two registers.  (For `val ≥ -2^32` the Python expression
`(1 << 32) + val` is non-negative, so the `Int.toNat` below is exact.) -/
def pack_s32 (val : Int) : List Nat :=
  let v : Int := if val < 0 then (1 <<< 32 : Int) + val else val
  let vn := v.toNat
  [(vn >>> 16) &&& 0xFFFF, vn &&& 0xFFFF]

/-! ## modbus_service.py — signed 32-bit register codec (Supervisor relay) -/

/-- `regs_to_s32` from `src/master2./modbus_service.py` (the identical
helper also appears as `MasterController._regs_to_s32` in
`src/master/controller.py`). -/
def regs_to_s32 (hi lo : Nat) : Int :=
  let val := ((hi &&& 0xFFFF) <<< 16) ||| (lo &&& 0xFFFF)
  if val &&& 0x80000000 ≠ 0 then (val : Int) - (1 <<< 32 : Int) else (val : Int)

/-- `s32_to_regs` from `src/master2./modbus_service.py`.  (As in
`pack_s32`, for inputs ≥ `-2^32` the shifted value is non-negative and
`Int.toNat` is exact.) -/
def s32_to_regs (val : Int) : Nat × Nat :=
  let v : Int := if val < 0 then (1 <<< 32 : Int) + val else val
  let vn := v.toNat
  ((vn >>> 16) &&& 0xFFFF, vn &&& 0xFFFF)

/-! ## Bitwise-to-arithmetic bridging lemmas -/

theorem and_mask8 (x : Nat) : x &&& 0xFF = x % 256 := by
  simpa using Nat.and_pow_two_sub_one_eq_mod x 8

theorem and_mask16 (x : Nat) : x &&& 0xFFFF = x % 65536 := by
  simpa using Nat.and_pow_two_sub_one_eq_mod x 16

theorem shr8_eq (x : Nat) : x >>> 8 = x / 256 := by
  simpa using Nat.shiftRight_eq_div_pow x 8

theorem shr16_eq (x : Nat) : x >>> 16 = x / 65536 := by
  simpa using Nat.shiftRight_eq_div_pow x 16

theorem shl8_eq (x : Nat) : x <<< 8 = x * 256 := by
  simpa using Nat.shiftLeft_eq x 8

theorem shl16_eq (x : Nat) : x <<< 16 = x * 65536 := by
  simpa using Nat.shiftLeft_eq x 16

/-- Bitwise-or of a low byte with a shifted high byte is addition. -/
theorem lor_shl8_eq_add (a b : Nat) (h : a < 256) :
    a ||| b <<< 8 = a + b * 256 := by
  have h2 : (2 : Nat) ^ 8 * b + a = 2 ^ 8 * b ||| a := Nat.mul_add_lt_is_or (by simpa using h) b
  calc a ||| b <<< 8 = b <<< 8 ||| a := Nat.lor_comm _ _
    _ = 2 ^ 8 * b ||| a := by rw [shl8_eq]; ring_nf
    _ = 2 ^ 8 * b + a := h2.symm
    _ = a + b * 256 := by ring
/-- Bitwise-or of a shifted high word with a low word is addition. -/
theorem shl16_lor_eq_add (a b : Nat) (h : b < 65536) :
    a <<< 16 ||| b = a * 65536 + b := by
  have h2 : (2 : Nat) ^ 16 * a + b = 2 ^ 16 * a ||| b := Nat.mul_add_lt_is_or (by simpa using h) a
  calc a <<< 16 ||| b = 2 ^ 16 * a ||| b := by rw [shl16_eq]; ring_nf
    _ = 2 ^ 16 * a + b := h2.symm
    _ = a * 65536 + b := by ring

/-- Testing bit 31 by masking. -/
theorem and_bit31_ne_zero (x : Nat) :
    (x &&& 0x80000000 ≠ 0) ↔ x / 2147483648 % 2 = 1 := by
  have h := Nat.and_two_pow x 31
  have ht : x.testBit 31 = decide (x / 2 ^ 31 % 2 = 1) := Nat.testBit_to_div_mod
  norm_num at h
  rw [h, ht]
  norm_num

theorem crc16_le (data : List Nat) : crc16_modbus data ≤ 0xFFFF :=
  Nat.and_le_right

/-! ## CRC self-check -/

/-- Any frame formed by appending the CRC of a ≥3-byte body passes `verify_crc`. -/
theorem verify_crc_append_crc (data : List Nat) (h : 3 ≤ data.length) :
    verify_crc (append_crc data) = true := by
  have hlen : (append_crc data).length = data.length + 2 := by
    simp [append_crc]
  have hnotshort : ¬ (append_crc data).length < 5 := by omega
  set c := crc16_modbus data with hc
  have hcle : c ≤ 0xFFFF := crc16_le data
  have htake : (append_crc data).take ((append_crc data).length - 2) = data := by
    rw [hlen]
    exact List.take_left' (by omega)
  have hget1 : (append_crc data).getD ((append_crc data).length - 2) 0 = c &&& 0xFF := by
    rw [hlen, List.getD_eq_getElem?_getD, append_crc, ← hc,
      List.getElem?_append_right (by omega)]
    simp
  have hget2 : (append_crc data).getD ((append_crc data).length - 1) 0 = (c >>> 8) &&& 0xFF := by
    rw [hlen, List.getD_eq_getElem?_getD, append_crc, ← hc,
      List.getElem?_append_right (by omega)]
    have : data.length + 2 - 1 - data.length = 1 := by omega
    simp [this]
  have hcrc : (c &&& 0xFF) ||| ((c >>> 8) &&& 0xFF) <<< 8 = c := by
    rw [and_mask8, shr8_eq, and_mask8, lor_shl8_eq_add _ _ (Nat.mod_lt _ (by norm_num))]
    omega
  unfold verify_crc
  rw [if_neg hnotshort]
  simp only [htake, hget1, hget2, hcrc, ← hc]
  exact beq_self_eq_true c

/-! ## config.py — constants -/

def SLAVE_ID_DRIVER : Nat := 2
def SLAVE_ID_SHT20 : Nat := 1
def SLAVE_ID_COUNTER : Nat := 3
def AUTO_MOVE_PULSES : Nat := 5000
def AUTO_MOVE_SPEED : Nat := 8000

/-! ## device_manager.py — frames built by each device operation

Each `DeviceManager` operation builds one request frame and sends it with
`send_frame`; we embed the frame construction.  Whether the serial
response satisfied the operation's success check is supplied by the
`DevResp` oracle below. -/

/-- `motor_move_absolute`: clamp speed into `[0, 2^32-1]`, then FC16 to the
driver at `0x20` with `pack_s32(position) + pack_u32(speed)`. -/
def motor_move_absolute_frame (position : Int) (speed : Int) : List Nat :=
  let s : Int := if speed < 0 then 0 else if (0xFFFFFFFF : Int) < speed then 0xFFFFFFFF else speed
  build_fc16 SLAVE_ID_DRIVER 0x20 (pack_s32 position ++ pack_u32 s.toNat)

/-- `motor_jog_cw`: clamp speed, FC16 to the driver at `0x0030` with
`pack_u32(speed) + [0, 1]`. -/
def motor_jog_cw_frame (speed : Int) : List Nat :=
  let s : Int := if speed < 0 then 0 else if (0xFFFFFFFF : Int) < speed then 0xFFFFFFFF else speed
  build_fc16 SLAVE_ID_DRIVER 0x0030 (pack_u32 s.toNat ++ [0, 1])

/-- `motor_jog_ccw`: clamp speed, FC16 to the driver at `0x0030` with
`pack_u32(speed) + [0, 0]`. -/
def motor_jog_ccw_frame (speed : Int) : List Nat :=
  let s : Int := if speed < 0 then 0 else if (0xFFFFFFFF : Int) < speed then 0xFFFFFFFF else speed
  build_fc16 SLAVE_ID_DRIVER 0x0030 (pack_u32 s.toNat ++ [0, 0])

/-- `motor_step_on`: FC06 to the driver at `0x0000`, value 1. -/
def motor_step_on_frame : List Nat := build_fc06 SLAVE_ID_DRIVER 0x0000 1

/-- `motor_step_off`: FC06 to the driver at `0x0000`, value 0. -/
def motor_step_off_frame : List Nat := build_fc06 SLAVE_ID_DRIVER 0x0000 0

/-- `motor_stop`: FC06 to the driver at `0x0002`, value 1. -/
def motor_stop_frame : List Nat := build_fc06 SLAVE_ID_DRIVER 0x0002 1

/-- `motor_reset_alarm`: FC06 to the driver at `0x0001`, value 1. -/
def motor_reset_alarm_frame : List Nat := build_fc06 SLAVE_ID_DRIVER 0x0001 1

/-- `set_counter_target`: FC06 to the counter at `0x0001` with the target. -/
def set_counter_target_frame (target : Nat) : List Nat :=
  build_fc06 SLAVE_ID_COUNTER 0x0001 target

/-- `reset_counter`: FC06 to the counter at `0x0003`, value 1. -/
def reset_counter_frame : List Nat := build_fc06 SLAVE_ID_COUNTER 0x0003 1

/-! ## plc_controller.py — AUTO/MANUAL controller -/

/-- The `motor_state` strings of `PLCController` / `AUTO_STATE_MAP`. -/
inductive MotorState where
  | idle           -- "Idle"
  | waitingCount   -- "Waiting count"
  | motorRunning   -- "Motor running"
  | waitingReset   -- "Waiting reset"
  | alarm          -- "Alarm"
  | timeoutMotor   -- "Timeout motor"
  | disabled       -- "Disabled"
  | waitingTarget  -- "Waiting target"
  | manual         -- "Manual"
  deriving DecidableEq, Repr

/-- The `DeviceManager` state fields read and written by the controller
(the latest device snapshot plus the cached speed). -/
structure DeviceState where
  current_position : Int
  current_speed : Nat
  driver_alarm : Bool
  driver_inpos : Bool
  driver_running : Bool
  counter_value : Nat
  counter_target : Nat
  counter_done : Bool
  deriving DecidableEq, Repr

/-- The holding registers the controller reads and writes:
`HR[0]` (target), `HR[8]` (mode) and the MANUAL packet `HR[10..15]`. -/
structure HoldingRegs where
  target : Nat       -- HR[0]
  mode : Nat         -- HR[8]
  cmd : Nat          -- HR[10]
  pos_hi : Nat       -- HR[11]
  pos_lo : Nat       -- HR[12]
  speed : Nat        -- HR[13]
  source_code : Nat  -- HR[14]
  priority : Nat     -- HR[15]
  deriving DecidableEq, Repr

/-- `PLCController`'s own mutable fields. -/
structure PLCState where
  motor_state : MotorState
  last_motor_cmd_time : Nat
  last_tcp_target : Nat
  auto_enabled : Bool
  deriving DecidableEq, Repr

/-- Whole-system state threaded through one controller cycle. -/
structure Sys where
  plc : PLCState
  dev : DeviceState
  hr : HoldingRegs
  deriving DecidableEq, Repr

/-- Response oracle for the serial transactions a cycle may perform:
whether each `send_frame` response passed the operation's success check
(`set_counter_target`/`reset_counter`: non-empty and ≥ 8 bytes;
`motor_move_absolute` and the MANUAL dispatch ops: non-empty). -/
structure DevResp where
  target_ok : Bool
  move_ok : Bool
  reset_ok : Bool
  manual_ok : Bool
  deriving DecidableEq, Repr

/-- `PLCController.check_target_from_tcp`: when `HR[0]` differs from the
shadow `last_tcp_target`, update the shadow, forward the target to the
counter device, and on success record it in `device_manager.counter_target`. -/
def check_target_from_tcp (s : Sys) (target_ok : Bool) : Sys × List (List Nat) :=
  if s.hr.target ≠ s.plc.last_tcp_target then
    let s' : Sys :=
      { s with
        plc := { s.plc with last_tcp_target := s.hr.target }
        dev := if target_ok then { s.dev with counter_target := s.hr.target } else s.dev }
    (s', [set_counter_target_frame s.hr.target])
  else (s, [])

/-- The inline signed-32-bit decode in `process_manual_command`
(`pos_val = ((pos_hi & 0xFFFF) << 16) | (pos_lo & 0xFFFF)`, then
two's-complement correction). -/
def manual_pos_val (pos_hi pos_lo : Nat) : Int :=
  let v := ((pos_hi &&& 0xFFFF) <<< 16) ||| (pos_lo &&& 0xFFFF)
  if v &&& 0x80000000 ≠ 0 then (v : Int) - (1 <<< 32 : Int) else (v : Int)

/-- The `if cmd == ...` dispatch ladder of `process_manual_command`:
the frame sent for one MANUAL command code (none for unknown codes). -/
def manual_dispatch_frames (cmd : Nat) (pos : Int) (speed : Nat) : List (List Nat) :=
  if cmd = 1 then [motor_step_on_frame]
  else if cmd = 2 then [motor_step_off_frame]
  else if cmd = 3 then [motor_move_absolute_frame pos (speed : Int)]
  else if cmd = 5 then [motor_jog_cw_frame (speed : Int)]
  else if cmd = 6 then [motor_jog_ccw_frame (speed : Int)]
  else if cmd = 7 then [motor_stop_frame]
  else if cmd = 8 then [motor_reset_alarm_frame]
  else if cmd = 9 then [motor_stop_frame]
  else []

/-- `PLCController.process_manual_command`: read the packet `HR[10..15]`;
return untouched when `cmd == 0`; otherwise dispatch the command and
clear `HR[10]` regardless of the device operation's outcome (the
`success` flag is computed and then discarded by the source). -/
def process_manual_command (hr : HoldingRegs) : HoldingRegs × List (List Nat) :=
  if hr.cmd = 0 then (hr, [])
  else
    let pos_val := manual_pos_val hr.pos_hi hr.pos_lo
    let frames := manual_dispatch_frames hr.cmd pos_val hr.speed
    ({ hr with cmd := 0 }, frames)

/-- Lines 192–249 of `PLCController.auto_cycle`: the AUTO-mode branch,
which reads and writes only the controller state and the device snapshot. -/
def auto_branch (plc : PLCState) (dev : DeviceState) (resp : DevResp) (now : Nat) :
    PLCState × DeviceState × List (List Nat) :=
  if plc.auto_enabled = false then
    ({ plc with motor_state := .disabled }, dev, [])
  else if dev.driver_alarm then
    ({ plc with motor_state := .alarm }, dev, [])
  else if dev.counter_target = 0 then
    ({ plc with motor_state := .waitingTarget }, dev, [])
  else if dev.counter_done = true ∧ plc.motor_state ≠ .motorRunning ∧
      plc.motor_state ≠ .alarm then
    let fs := [motor_move_absolute_frame (AUTO_MOVE_PULSES : Int) (AUTO_MOVE_SPEED : Int)]
    if resp.move_ok then
      ({ plc with motor_state := .motorRunning, last_motor_cmd_time := now },
       { dev with current_speed := AUTO_MOVE_SPEED }, fs)
    else (plc, dev, fs)
  else if plc.motor_state = .motorRunning then
    if dev.driver_inpos then
      let fs := [reset_counter_frame]
      if resp.reset_ok then
        ({ plc with motor_state := .waitingReset, last_motor_cmd_time := now }, dev, fs)
      else (plc, dev, fs)
    else if 10 < now - plc.last_motor_cmd_time then
      ({ plc with motor_state := .timeoutMotor }, dev, [])
    else (plc, dev, [])
  else if plc.motor_state = .waitingReset then
    if dev.counter_value = 0 ∧ dev.counter_done = false then
      ({ plc with motor_state := .idle }, dev, [])
    else (plc, dev, [])
  else if plc.motor_state ≠ .idle ∧ plc.motor_state ≠ .waitingCount ∧
      plc.motor_state ≠ .waitingTarget ∧ plc.motor_state ≠ .timeoutMotor then
    ({ plc with motor_state := .waitingCount }, dev, [])
  else if dev.counter_done = false then
    ({ plc with motor_state := .waitingCount }, dev, [])
  else (plc, dev, [])

/-- `PLCController.auto_cycle`: update the target shadow, read the mode;
in MANUAL set the state to `Manual` and consume the packet, otherwise run
the AUTO branch.  Returns the new state and the serial frames sent. -/
def auto_cycle (s : Sys) (resp : DevResp) (now : Nat) : Sys × List (List Nat) :=
  let step1 := check_target_from_tcp s resp.target_ok
  let s1 := step1.1
  if s1.hr.mode = 1 then
    let step2 := process_manual_command s1.hr
    ({ s1 with plc := { s1.plc with motor_state := .manual }, hr := step2.1 },
     step1.2 ++ step2.2)
  else
    let step2 := auto_branch s1.plc s1.dev resp now
    ({ s1 with plc := step2.1, dev := step2.2.1 }, step1.2 ++ step2.2.2)

/-- Replace the MANUAL packet registers `HR[10..15]` of a state. -/
def setPacket (s : Sys) (c ph pl sp sc pr : Nat) : Sys :=
  { s with hr := { s.hr with
      cmd := c, pos_hi := ph, pos_lo := pl, speed := sp,
      source_code := sc, priority := pr } }

/-- Environment input for one controller tick: the register image and
snapshot as the remote masters and the serial poller last left them,
plus the serial-response oracle and the current time. -/
structure TickInput where
  hr : HoldingRegs
  dev : DeviceState
  resp : DevResp
  now : Nat
  deriving DecidableEq, Repr

/-- Run a sequence of controller ticks, each preceded by the environment
overwriting the register image and the device snapshot. -/
def runTicks (s : Sys) : List TickInput → Sys × List (List Nat)
  | [] => (s, [])
  | i :: rest =>
    let step := auto_cycle { s with hr := i.hr, dev := i.dev } i.resp i.now
    let steps := runTicks step.1 rest
    (steps.1, step.2 ++ steps.2)

/-! ## modbus_service.py — Supervisor relay status parse -/

/-- The status dictionary built by `ModbusService.poll_status`
(the `timestamp` field is wall-clock time and is omitted here).
Temperatures and humidities are rationals, mirroring Python's exact
`float(x) / 10.0` on small integers. -/
structure ParsedStatus where
  position : Int
  speed : Nat
  temperature : ℚ
  humidity : ℚ
  driver_alarm : Bool
  driver_inpos : Bool
  driver_running : Bool
  counter_value : Nat
  counter_target : Nat
  auto_state_code : Nat
  mode : Nat
  step_enabled : Bool
  jog_state : Nat
  deriving DecidableEq, Repr

/-- `ModbusService.poll_status` (parsing part): `None` when fewer than 12
registers came back, otherwise unpack
`pos_hi, pos_lo, speed, temp10, humi10, status_word, cnt_val, cnt_target,
auto_code, mode_val, step_state, jog_state = regs[:12]`. -/
def poll_status_parse (regs : List Nat) : Option ParsedStatus :=
  if regs.length < 12 then none
  else some
    { position := regs_to_s32 (regs.getD 0 0) (regs.getD 1 0)
      speed := regs.getD 2 0
      temperature := (regs.getD 3 0 : ℚ) / 10
      humidity := (regs.getD 4 0 : ℚ) / 10
      driver_alarm := regs.getD 5 0 &&& (1 <<< 0) ≠ 0
      driver_inpos := regs.getD 5 0 &&& (1 <<< 1) ≠ 0
      driver_running := regs.getD 5 0 &&& (1 <<< 2) ≠ 0
      counter_value := regs.getD 6 0
      counter_target := regs.getD 7 0
      auto_state_code := regs.getD 8 0
      mode := regs.getD 9 0
      step_enabled := regs.getD 10 0 ≠ 0
      jog_state := regs.getD 11 0 }

/-! ## JSON command admission

Two handler implementations exist in the source; both silently ignore
`heartbeat` and log-and-drop anything outside their allowed set. -/

/-- What a handler does with one received command object. -/
inductive CmdAction where
  | ignored    -- heartbeat: silently dropped
  | forwarded  -- emitted for execution
  | rejected   -- logged as unsupported and dropped
  deriving DecidableEq, Repr

/-- The `allowed` set of `TCPServerForC._handle_command`
(`src/master/tcp_server.py`). -/
def tcpServerAllowed : List String :=
  ["motor_control", "jog_control", "stop_motor",
   "release_control", "emergency_stop", "set_mode"]

/-- `TCPServerForC._handle_command` admission logic. -/
def tcpServerForC_handle (cmd_type : String) : CmdAction :=
  if cmd_type = "heartbeat" then .ignored
  else if cmd_type ∈ tcpServerAllowed then .forwarded
  else .rejected

/-- The `allowed` set of `LayerBMainWindow._on_command_from_c`
(`src/master2./ui.py`). -/
def layerBAllowed : List String :=
  ["motor_control", "jog_control", "stop_motor", "release_control",
   "emergency_stop", "set_target", "set_mode"]

/-- `LayerBMainWindow._on_command_from_c` admission logic. -/
def layerB_on_command_from_c (cmd_type : String) : CmdAction :=
  if cmd_type = "heartbeat" then .ignored
  else if cmd_type ∈ layerBAllowed then .forwarded
  else .rejected

/-! ## Concrete test vectors -/

/-- A response oracle in which every serial transaction succeeds. -/
def allOk : DevResp :=
  { target_ok := true, move_ok := true, reset_ok := true, manual_ok := true }

/-- A response oracle in which every serial transaction fails
(empty or short response). -/
def noResp : DevResp :=
  { target_ok := false, move_ok := false, reset_ok := false, manual_ok := false }

/-- AUTO mode, counter target 3 reached (`counter_done`), no alarm,
engine waiting on the count, target shadow in sync. -/
def c1sys : Sys :=
  { plc := { motor_state := .waitingCount, last_motor_cmd_time := 0,
             last_tcp_target := 3, auto_enabled := true }
    dev := { current_position := 0, current_speed := 0, driver_alarm := false,
             driver_inpos := false, driver_running := false,
             counter_value := 3, counter_target := 3, counter_done := true }
    hr := { target := 3, mode := 0, cmd := 0, pos_hi := 0, pos_lo := 0,
            speed := 0, source_code := 0, priority := 0 } }

/-- MANUAL mode with an EMERGENCY packet (`cmd_code = 9`) pending while a
jog is in progress. -/
def c2sys : Sys :=
  { plc := { motor_state := .manual, last_motor_cmd_time := 0,
             last_tcp_target := 0, auto_enabled := true }
    dev := { current_position := 0, current_speed := 50000, driver_alarm := false,
             driver_inpos := false, driver_running := true,
             counter_value := 0, counter_target := 0, counter_done := false }
    hr := { target := 0, mode := 1, cmd := 9, pos_hi := 0, pos_lo := 0,
            speed := 0, source_code := 3, priority := 3 } }

/-- AUTO mode with a non-zero MANUAL packet (`cmd_code = 7`) written by a
remote master. -/
def c3sys : Sys :=
  { plc := { motor_state := .idle, last_motor_cmd_time := 0,
             last_tcp_target := 5, auto_enabled := true }
    dev := { current_position := 0, current_speed := 0, driver_alarm := false,
             driver_inpos := false, driver_running := false,
             counter_value := 1, counter_target := 5, counter_done := false }
    hr := { target := 5, mode := 0, cmd := 7, pos_hi := 0, pos_lo := 0,
            speed := 0, source_code := 2, priority := 2 } }

/-- MANUAL-mode state used to witness packet consumption in MANUAL. -/
def c3msys : Sys :=
  { plc := { motor_state := .manual, last_motor_cmd_time := 0,
             last_tcp_target := 5, auto_enabled := true }
    dev := { current_position := 0, current_speed := 0, driver_alarm := false,
             driver_inpos := false, driver_running := false,
             counter_value := 1, counter_target := 5, counter_done := false }
    hr := { target := 5, mode := 1, cmd := 3, pos_hi := 0, pos_lo := 1000,
            speed := 500, source_code := 2, priority := 2 } }

/-- AUTO mode with a non-zero MANUAL packet, for the packet-independence witness. -/
def c4sys : Sys :=
  { plc := { motor_state := .waitingCount, last_motor_cmd_time := 0,
             last_tcp_target := 2, auto_enabled := true }
    dev := { current_position := 0, current_speed := 0, driver_alarm := false,
             driver_inpos := false, driver_running := false,
             counter_value := 0, counter_target := 2, counter_done := false }
    hr := { target := 2, mode := 0, cmd := 3, pos_hi := 0, pos_lo := 100,
            speed := 1000, source_code := 2, priority := 2 } }

/-- AUTO mode with `driver_alarm` raised and a pending counter-target
change (`HR[0] = 5` differs from the shadow `0`). -/
def c5sys : Sys :=
  { plc := { motor_state := .idle, last_motor_cmd_time := 0,
             last_tcp_target := 0, auto_enabled := true }
    dev := { current_position := 0, current_speed := 0, driver_alarm := true,
             driver_inpos := false, driver_running := false,
             counter_value := 0, counter_target := 5, counter_done := true }
    hr := { target := 5, mode := 0, cmd := 0, pos_hi := 0, pos_lo := 0,
            speed := 0, source_code := 0, priority := 0 } }

/-- One alarmed AUTO tick environment for the multi-tick witness. -/
def c5input : TickInput :=
  { hr := { target := 5, mode := 0, cmd := 0, pos_hi := 0, pos_lo := 0,
            speed := 0, source_code := 0, priority := 0 }
    dev := { current_position := 0, current_speed := 0, driver_alarm := true,
             driver_inpos := false, driver_running := false,
             counter_value := 0, counter_target := 5, counter_done := true }
    resp := allOk
    now := 1 }

/-- MANUAL mode with an unknown command code (4) in `HR[10]`. -/
def c10sys : Sys :=
  { plc := { motor_state := .manual, last_motor_cmd_time := 0,
             last_tcp_target := 0, auto_enabled := true }
    dev := { current_position := 0, current_speed := 0, driver_alarm := false,
             driver_inpos := false, driver_running := false,
             counter_value := 0, counter_target := 0, counter_done := false }
    hr := { target := 0, mode := 1, cmd := 4, pos_hi := 0, pos_lo := 0,
            speed := 100, source_code := 3, priority := 3 } }

/-! ## Supporting lemmas about the controller cycle -/

/-- A bit test written as masking with a shifted one, as `poll_status` does. -/
theorem decide_and_shl_testBit (x i : Nat) :
    (decide (x &&& 1 <<< i ≠ 0)) = x.testBit i := by
  rw [Nat.one_shiftLeft, Nat.and_two_pow]
  cases h : x.testBit i <;> simp [h]

theorem and_two_eq (x : Nat) : x &&& 2 = (x.testBit 1).toNat * 2 := by
  simpa using Nat.and_two_pow x 1

theorem and_four_eq (x : Nat) : x &&& 4 = (x.testBit 2).toNat * 4 := by
  simpa using Nat.and_two_pow x 2

/-- In MANUAL mode every cycle leaves `HR[10]` zero: `process_manual_command`
clears it after dispatch, and leaves it untouched only when already zero. -/
theorem manual_cycle_clears_cmd (s : Sys) (resp : DevResp) (now : Nat)
    (hmode : s.hr.mode = 1) :
    (auto_cycle s resp now).1.hr.cmd = 0 := by
  unfold auto_cycle check_target_from_tcp process_manual_command
  by_cases hb : s.hr.target = s.plc.last_tcp_target <;>
    by_cases hc : s.hr.cmd = 0 <;>
      simp [hb, hc, hmode]

/-- In AUTO mode the cycle never writes any holding register. -/
theorem auto_cycle_preserves_hr (s : Sys) (resp : DevResp) (now : Nat)
    (hmode : s.hr.mode = 0) :
    (auto_cycle s resp now).1.hr = s.hr := by
  unfold auto_cycle check_target_from_tcp
  by_cases hb : s.hr.target = s.plc.last_tcp_target <;>
    by_cases ht : resp.target_ok = true <;>
      simp [hb, ht, hmode]

/-- In AUTO mode the frames a cycle emits do not depend on the MANUAL
packet registers `HR[10..15]`. -/
theorem auto_cycle_packet_independent (s : Sys) (resp : DevResp) (now : Nat)
    (hmode : s.hr.mode = 0) (c ph pl sp sc pr : Nat) :
    (auto_cycle (setPacket s c ph pl sp sc pr) resp now).2 = (auto_cycle s resp now).2 := by
  unfold auto_cycle check_target_from_tcp setPacket
  by_cases hb : s.hr.target = s.plc.last_tcp_target <;>
    by_cases ht : resp.target_ok = true <;>
      simp [hb, ht, hmode]

/-- In MANUAL mode the frames a cycle emits do not depend on the serial
response oracle (the dispatch result is discarded by the source). -/
theorem manual_cycle_resp_independent (s : Sys) (resp resp' : DevResp) (now : Nat)
    (hmode : s.hr.mode = 1) :
    (auto_cycle s resp now).2 = (auto_cycle s resp' now).2 := by
  unfold auto_cycle check_target_from_tcp process_manual_command
  by_cases hb : s.hr.target = s.plc.last_tcp_target <;> simp [hb, hmode]

/-- One alarmed AUTO tick: the state becomes `Alarm`, `auto_enabled` is
preserved, and every frame emitted is a counter-target forward. -/
theorem alarm_tick (s : Sys) (resp : DevResp) (now : Nat)
    (hmode : s.hr.mode = 0) (halarm : s.dev.driver_alarm = true)
    (hen : s.plc.auto_enabled = true) :
    (∀ f ∈ (auto_cycle s resp now).2, ∃ t, f = set_counter_target_frame t) ∧
    (auto_cycle s resp now).1.plc.motor_state = .alarm ∧
    (auto_cycle s resp now).1.plc.auto_enabled = true := by
  unfold auto_cycle check_target_from_tcp
  by_cases hb : s.hr.target = s.plc.last_tcp_target
  · simp [hb, hmode, auto_branch, halarm, hen]
  · by_cases ht : resp.target_ok = true
    · simp [hb, ht, hmode, auto_branch, halarm, hen]
    · simp [hb, ht, hmode, auto_branch, halarm, hen]

/-! ## Claim theorems -/

set_option maxRecDepth 8000 in
/-- Claim C1: in AUTO mode (HR[8]=0) with no driver alarm, a positive
counter target, `counter_done = true` in the snapshot, and the engine
state neither MotorRunning nor Alarm (with the target shadow in sync and
the serial write answered), one `auto_cycle` tick submits
MOVE_ABS(5000, 8000): the frame sent is the FC16 write to slave 2 at
register 0x0020 with payload registers [0x0000, 0x1388, 0x0000, 0x1F40],
the state becomes MotorRunning, and `last_motor_cmd_time` is set to the
current time. -/
theorem auto_issues_move (s : Sys) (resp : DevResp) (now : Nat)
    (hmode : s.hr.mode = 0) (hen : s.plc.auto_enabled = true)
    (halarm : s.dev.driver_alarm = false)
    (htgt : s.dev.counter_target ≠ 0)
    (hdone : s.dev.counter_done = true)
    (hrun : s.plc.motor_state ≠ .motorRunning) (halst : s.plc.motor_state ≠ .alarm)
    (hsteady : s.hr.target = s.plc.last_tcp_target)
    (hok : resp.move_ok = true) :
    (auto_cycle s resp now).2 = [build_fc16 2 0x20 [0x0000, 0x1388, 0x0000, 0x1F40]] ∧
    (auto_cycle s resp now).1.plc.motor_state = .motorRunning ∧
    (auto_cycle s resp now).1.plc.last_motor_cmd_time = now := by
  have hchk : check_target_from_tcp s resp.target_ok = (s, []) := by
    unfold check_target_from_tcp
    simp [hsteady]
  have hframe : motor_move_absolute_frame (AUTO_MOVE_PULSES : Int) (AUTO_MOVE_SPEED : Int) =
      build_fc16 2 0x20 [0x0000, 0x1388, 0x0000, 0x1F40] := by decide
  simp only [auto_cycle, hchk, auto_branch, hframe]
  simp [hmode, hen, halarm, htgt, hdone, hok, hrun, halst]

/-- Claim C1 witness: the AUTO move fires from the concrete state `c1sys`. -/
theorem auto_issues_move_witness :
    (auto_cycle c1sys allOk 42).2 = [build_fc16 2 0x20 [0x0000, 0x1388, 0x0000, 0x1F40]] ∧
    (auto_cycle c1sys allOk 42).1.plc.motor_state = .motorRunning ∧
    (auto_cycle c1sys allOk 42).1.plc.last_motor_cmd_time = 42 :=
  auto_issues_move c1sys allOk 42 rfl rfl rfl (by decide) rfl
    (by decide) (by decide) rfl rfl

set_option maxRecDepth 8000 in
/-- Claim C2 counterexample: processing the EMERGENCY packet in MANUAL
mode issues the stop frame but leaves the engine state `Manual`, not
`Alarm`, and a MOVE packet on the following cycle is still translated
into a serial frame (not dropped). -/
theorem emergency_no_alarm_counterexample :
    (auto_cycle c2sys allOk 0).2 = [build_fc06 2 0x0002 1] ∧
    (auto_cycle c2sys allOk 0).1.plc.motor_state ≠ MotorState.alarm ∧
    (auto_cycle (setPacket (auto_cycle c2sys allOk 0).1 3 0 20000 8000 3 3) allOk 1).2 ≠ [] := by
  decide

/-- Claim C2 (amended): processing an EMERGENCY command (`cmd_code = 9`,
mode=MANUAL) issues motor_stop — FC06 to slave 2 at register 0x0002 with
value 1 — and clears the command slot, but the engine state is set to
`Manual` (the MANUAL branch), not `Alarm`, and later motion commands are
not blocked. -/
theorem emergency_issues_stop (s : Sys) (resp : DevResp) (now : Nat)
    (hmode : s.hr.mode = 1) (hcmd : s.hr.cmd = 9)
    (hsteady : s.hr.target = s.plc.last_tcp_target) :
    (auto_cycle s resp now).2 = [build_fc06 2 0x0002 1] ∧
    (auto_cycle s resp now).1.plc.motor_state = .manual ∧
    (auto_cycle s resp now).1.hr.cmd = 0 := by
  unfold auto_cycle check_target_from_tcp process_manual_command
  simp [hsteady, hmode, hcmd, manual_dispatch_frames, motor_stop_frame, SLAVE_ID_DRIVER]

/-- Claim C2 witness: the amended behaviour at the concrete state `c2sys`. -/
theorem emergency_issues_stop_witness :
    (auto_cycle c2sys allOk 0).1.plc.motor_state = .manual ∧
    (auto_cycle c2sys allOk 0).1.hr.cmd = 0 :=
  ⟨(emergency_issues_stop c2sys allOk 0 rfl rfl rfl).2.1,
   (emergency_issues_stop c2sys allOk 0 rfl rfl rfl).2.2⟩

set_option maxRecDepth 8000 in
/-- Claim C3 counterexample: in AUTO mode (HR[8]=0) a non-zero `HR[10]`
survives three consecutive processing steps unchanged — the consumer
runs only in MANUAL mode, so the claim's "for every mode" fails. -/
theorem hr10_auto_counterexample :
    c3sys.hr.cmd = 7 ∧
    (auto_cycle c3sys allOk 0).1.hr.cmd = 7 ∧
    (auto_cycle (auto_cycle (auto_cycle c3sys allOk 0).1 allOk 1).1 allOk 2).1.hr.cmd = 7 := by
  decide

/-- Claim C3 (amended): `HR[10]` is restored to 0 within the next
processing step only in MANUAL mode (HR[8]=1); in AUTO mode (HR[8]=0)
the processing step leaves all holding registers, `HR[10]` included,
unchanged. -/
theorem hr10_consumption (s : Sys) (resp : DevResp) (now : Nat) :
    (s.hr.mode = 1 → (auto_cycle s resp now).1.hr.cmd = 0) ∧
    (s.hr.mode = 0 → (auto_cycle s resp now).1.hr.cmd = s.hr.cmd) := by
  constructor
  · intro hmode
    exact manual_cycle_clears_cmd s resp now hmode
  · intro hmode
    rw [auto_cycle_preserves_hr s resp now hmode]

/-- Claim C3 witness: at the concrete MANUAL state `c3msys` the pending
command slot is zeroed by one processing step. -/
theorem hr10_consumption_witness :
    (auto_cycle c3msys allOk 0).1.hr.cmd = 0 :=
  (hr10_consumption c3msys allOk 0).1 rfl

/-- Claim C4: in AUTO mode (HR[8]=0) one controller cycle leaves every
holding register — in particular the MANUAL packet `HR[10..15]` —
unchanged, and the serial frames it emits are the same for every value
of the packet registers: no frame is derived from the packet. -/
theorem auto_mode_ignores_packet (s : Sys) (resp : DevResp) (now : Nat)
    (hmode : s.hr.mode = 0) (c ph pl sp sc pr : Nat) :
    (auto_cycle s resp now).1.hr = s.hr ∧
    (auto_cycle (setPacket s c ph pl sp sc pr) resp now).2 = (auto_cycle s resp now).2 :=
  ⟨auto_cycle_preserves_hr s resp now hmode,
   auto_cycle_packet_independent s resp now hmode c ph pl sp sc pr⟩

/-- Claim C4 witness: at the concrete AUTO state `c4sys` with a pending
MOVE packet the registers survive the cycle and the frames are those of
the same state with any other packet. -/
theorem auto_mode_ignores_packet_witness :
    (auto_cycle c4sys allOk 5).1.hr = c4sys.hr ∧
    (auto_cycle (setPacket c4sys 9 1 2 3 2 2) allOk 5).2 = (auto_cycle c4sys allOk 5).2 :=
  auto_mode_ignores_packet c4sys allOk 5 rfl 9 1 2 3 2 2

set_option maxRecDepth 8000 in
/-- Claim C5 counterexample: on an alarmed AUTO tick with a pending
counter-target change the cycle still issues a serial device write (the
FC06 target forward to slave 3), so "the tick returns without issuing
device writes" is false as stated; the state does become `Alarm`. -/
theorem alarm_tick_writes_counterexample :
    c5sys.dev.driver_alarm = true ∧ c5sys.hr.mode = 0 ∧
    (auto_cycle c5sys allOk 0).2 = [build_fc06 3 0x0001 5] ∧
    (auto_cycle c5sys allOk 0).1.plc.motor_state = MotorState.alarm := by
  decide

/-- Claim C5 (amended): across any run of AUTO-mode ticks whose snapshots
all show `driver_alarm = true`, the engine submits no motion command —
every frame emitted is a counter-target forward to the counter device —
and after any such tick the state is `Alarm`. -/
theorem alarm_blocks_motion (s : Sys) (steps : List TickInput)
    (hen : s.plc.auto_enabled = true)
    (h : ∀ i ∈ steps, i.hr.mode = 0 ∧ i.dev.driver_alarm = true) :
    (∀ f ∈ (runTicks s steps).2, ∃ t, f = set_counter_target_frame t) ∧
    (steps ≠ [] → (runTicks s steps).1.plc.motor_state = .alarm) := by
  induction steps generalizing s with
  | nil => simp [runTicks]
  | cons i rest ih =>
    obtain ⟨hm, ha⟩ := h i (by simp)
    have hrest : ∀ j ∈ rest, j.hr.mode = 0 ∧ j.dev.driver_alarm = true :=
      fun j hj => h j (by simp [hj])
    have htick := alarm_tick { s with hr := i.hr, dev := i.dev } i.resp i.now hm ha hen
    have ih' := ih (auto_cycle { s with hr := i.hr, dev := i.dev } i.resp i.now).1
      htick.2.2 hrest
    constructor
    · intro f hf
      simp only [runTicks, List.mem_append] at hf
      rcases hf with hf | hf
      · exact htick.1 f hf
      · exact ih'.1 f hf
    · intro _
      cases rest with
      | nil => simpa [runTicks] using htick.2.1
      | cons j js =>
        have := ih'.2 (by simp)
        simpa [runTicks] using this

/-- Claim C5 witness: a one-tick alarmed run from a concrete state. -/
theorem alarm_blocks_motion_witness :
    (∀ f ∈ (runTicks c5sys [c5input]).2, ∃ t, f = set_counter_target_frame t) ∧
    ([c5input] ≠ [] → (runTicks c5sys [c5input]).1.plc.motor_state = .alarm) :=
  alarm_blocks_motion c5sys [c5input] rfl (by decide)

/-- Claim C6 counterexample: the `TCPServerForC` handler rejects
`set_target`, although the claim's admitted set contains it. -/
theorem set_target_rejected_counterexample :
    tcpServerForC_handle "set_target" = CmdAction.rejected ∧
    CmdAction.rejected ≠ CmdAction.forwarded := by
  decide

/-- Claim C6 (amended): both JSON handlers silently ignore `heartbeat`
and forward exactly their allowed set, rejecting everything else — but
the two allowed sets differ: `LayerBMainWindow._on_command_from_c`
admits the seven claimed types including `set_target`, while
`TCPServerForC._handle_command` admits the same set minus `set_target`. -/
theorem json_admission_characterization (t : String) :
    (tcpServerForC_handle t = .ignored ↔ t = "heartbeat") ∧
    (tcpServerForC_handle t = .forwarded ↔ t ∈ tcpServerAllowed) ∧
    (layerB_on_command_from_c t = .ignored ↔ t = "heartbeat") ∧
    (layerB_on_command_from_c t = .forwarded ↔ t ∈ layerBAllowed) ∧
    "set_target" ∉ tcpServerAllowed ∧ "set_target" ∈ layerBAllowed := by
  unfold tcpServerForC_handle layerB_on_command_from_c
  by_cases hh : t = "heartbeat"
  · subst hh
    refine ⟨by simp, ?_, by simp, ?_, by decide, by decide⟩ <;>
      simp [tcpServerAllowed, layerBAllowed]
  · by_cases hc1 : t ∈ tcpServerAllowed <;> by_cases hc2 : t ∈ layerBAllowed <;>
      (simp [hh, hc1, hc2]; exact ⟨by decide, by decide⟩)

/-- Claim C7: the Supervisor relay's `poll_status` parse, characterized
on every 12-register vector — position is the signed 32-bit decode of
the first register pair and alarm/in-position/running are bits 0/1/2 of
the status word — and evaluated at the §8 S6 vector
[0, 20000, 8000, 250, 500, 0b110, 3, 10, 2, 0, 1, 0], yielding exactly
the claimed status object. -/
theorem supervisor_status_parse :
    (∀ r0 r1 r2 r3 r4 r5 r6 r7 r8 r9 r10 r11 : Nat,
      poll_status_parse [r0, r1, r2, r3, r4, r5, r6, r7, r8, r9, r10, r11] =
        some ⟨regs_to_s32 r0 r1, r2, (r3 : ℚ) / 10, (r4 : ℚ) / 10,
          r5.testBit 0, r5.testBit 1, r5.testBit 2,
          r6, r7, r8, r9, decide (r10 ≠ 0), r11⟩) ∧
    poll_status_parse [0, 20000, 8000, 250, 500, 0b110, 3, 10, 2, 0, 1, 0] =
      some ⟨20000, 8000, 25, 50, false, true, true, 3, 10, 2, 0, true, 0⟩ := by
  constructor
  · intro r0 r1 r2 r3 r4 r5 r6 r7 r8 r9 r10 r11
    unfold poll_status_parse
    simp [decide_and_shl_testBit]
    constructor
    · rw [and_two_eq]; cases h : r5.testBit 1 <;> simp [h]
    · rw [and_four_eq]; cases h : r5.testBit 2 <;> simp [h]
  · unfold poll_status_parse regs_to_s32
    norm_num
    decide

/-- Claim C8: every frame produced by the four builders carries a
consistent little-endian CRC-16 (poly 0xA001, seed 0xFFFF): `verify_crc`
accepts it, for all in-range slave ids, addresses and register values. -/
theorem crc_selfcheck_builders (s a c v : Nat) (regs : List Nat)
    (hs : s < 256) (ha : a < 65536) (hc : c < 65536) (hv : v < 65536) :
    verify_crc (build_fc03 s a c) = true ∧
    verify_crc (build_fc04 s a c) = true ∧
    verify_crc (build_fc06 s a v) = true ∧
    verify_crc (build_fc16 s a regs) = true := by
  refine ⟨?_, ?_, ?_, ?_⟩ <;> exact verify_crc_append_crc _ (by simp)

/-- Claim C8 witness: the self-check at concrete frames (the driver
position read, a sensor read, the stop write, and the AUTO move). -/
theorem crc_selfcheck_builders_witness :
    verify_crc (build_fc03 2 0x1000 2) = true ∧
    verify_crc (build_fc04 2 0x1000 2) = true ∧
    verify_crc (build_fc06 2 0x1000 1) = true ∧
    verify_crc (build_fc16 2 0x1000 [0, 5000, 0, 8000]) = true :=
  crc_selfcheck_builders 2 0x1000 2 1 [0, 5000, 0, 8000]
    (by decide) (by decide) (by decide) (by decide)

/-- Claim C9: decoding after encoding is the identity on the full signed
32-bit range: `regs_to_s32 (s32_to_regs x) = x` for all
`x ∈ [-2^31, 2^31 - 1]`. -/
theorem regs_roundtrip_s32 (x : Int) (h1 : -(2 ^ 31) ≤ x) (h2 : x ≤ 2 ^ 31 - 1) :
    regs_to_s32 (s32_to_regs x).1 (s32_to_regs x).2 = x := by
  unfold s32_to_regs regs_to_s32
  have h32 : (1 <<< 32 : Int) = 4294967296 := by decide
  simp only [h32, and_mask16, shr16_eq]
  set v : Int := if x < 0 then (4294967296 : Int) + x else x with hv
  have hvrange : 0 ≤ v ∧ v < 4294967296 := by
    constructor <;> (rw [hv]; split <;> omega)
  set vn := v.toNat with hvn
  have hcast : (vn : Int) = v := Int.toNat_of_nonneg hvrange.1
  have hnlt : vn < 4294967296 := by omega
  have hlo_lt : vn % 65536 % 65536 < 65536 := Nat.mod_lt _ (by norm_num)
  rw [shl16_lor_eq_add _ _ hlo_lt]
  have hVeq : vn / 65536 % 65536 % 65536 * 65536 + vn % 65536 % 65536 = vn := by omega
  rw [hVeq]
  rw [hv] at hcast
  split_ifs with hbit
  · have hb2 : vn / 2147483648 % 2 = 1 := (and_bit31_ne_zero vn).mp hbit
    rcases lt_or_le x 0 with hx | hx
    · rw [if_pos hx] at hcast; omega
    · rw [if_neg (not_lt.mpr hx)] at hcast; omega
  · have hb2 : ¬ (vn / 2147483648 % 2 = 1) := fun hcon => hbit ((and_bit31_ne_zero vn).mpr hcon)
    rcases lt_or_le x 0 with hx | hx
    · rw [if_pos hx] at hcast; omega
    · rw [if_neg (not_lt.mpr hx)] at hcast; omega

/-- Claim C9 witness: the round-trip at the negative value −5. -/
theorem regs_roundtrip_s32_witness :
    regs_to_s32 (s32_to_regs (-5)).1 (s32_to_regs (-5)).2 = -5 :=
  regs_roundtrip_s32 (-5) (by decide) (by decide)

/-- Claim C10: in MANUAL mode every non-zero command code in `HR[10]` —
recognized or not — is consumed by one pass: the slot is zeroed, the
frames sent do not depend on whether the device operation succeeded
(no retry, no distinct rejection), and an unrecognized code (outside
{1,2,3,5,6,7,8,9}) produces no serial frame at all. -/
theorem manual_always_consumes (s : Sys) (resp resp' : DevResp) (now : Nat)
    (hmode : s.hr.mode = 1) (hcmd : s.hr.cmd ≠ 0) :
    (auto_cycle s resp now).1.hr.cmd = 0 ∧
    (auto_cycle s resp now).2 = (auto_cycle s resp' now).2 ∧
    (s.hr.target = s.plc.last_tcp_target ∧ s.hr.cmd ∉ ([1, 2, 3, 5, 6, 7, 8, 9] : List Nat) →
      (auto_cycle s resp now).2 = []) := by
  refine ⟨manual_cycle_clears_cmd s resp now hmode,
    manual_cycle_resp_independent s resp resp' now hmode, ?_⟩
  rintro ⟨hsteady, hn⟩
  simp only [List.mem_cons, List.mem_singleton] at hn
  push_neg at hn
  obtain ⟨n1, n2, n3, n5, n6, n7, n8, n9⟩ := hn
  unfold auto_cycle check_target_from_tcp process_manual_command
  simp [hsteady, hmode, hcmd, manual_dispatch_frames, n1, n2, n3, n5, n6, n7, n8, n9]

/-- Claim C10 witness: the unknown code 4 at the concrete state `c10sys`
is consumed with no frame, identically under success and failure oracles. -/
theorem manual_always_consumes_witness :
    (auto_cycle c10sys allOk 0).1.hr.cmd = 0 ∧
    (auto_cycle c10sys allOk 0).2 = (auto_cycle c10sys noResp 0).2 ∧
    (c10sys.hr.target = c10sys.plc.last_tcp_target ∧
        c10sys.hr.cmd ∉ ([1, 2, 3, 5, 6, 7, 8, 9] : List Nat) →
      (auto_cycle c10sys allOk 0).2 = []) :=
  manual_always_consumes c10sys allOk noResp 0 rfl (by decide)

end Ktmt
